import Mathlib

/-!
Verification of the MLC X-ray report generator
(src/MLC_Xray_Report_Generator.py).

The program collects patient fields from a form, assembles a textual
report (`build_report_text`), and exports it as a PDF (`create_pdf`)
and a DOCX (`create_docx`).  We embed the assembler and both exporters
shallowly: Python strings are Lean `String`s, the Python operations
`s.split(c)` and `sep.join(lines)` are modelled by `pySplit` / `pyJoin`
below, byte blobs are `List Nat`, and the external image-decoding
library call is an abstract fallible function threaded in as a
parameter.
-/

namespace MLCXray

/-- Model of the Python expression `s.split(sep)` for a one-character
separator, at the level of character lists.  `split` of the empty list
is `[[]]`, matching Python where a split always returns at least one
(possibly empty) piece. -/
def pySplitChars (sep : Char) : List Char → List (List Char)
  | [] => [[]]
  | c :: cs =>
    let r := pySplitChars sep cs
    if c = sep then [] :: r
    else
      match r with
      | [] => [[c]]
      | h :: t => (c :: h) :: t

/-- Model of Python `s.split('\n')` on strings. -/
def pySplit (s : String) : List String :=
  (pySplitChars '\n' s.data).map String.mk

/-- Model of the Python expression `sep.join(pieces)` for a
one-character separator, at the level of character lists. -/
def pyJoinChars (sep : Char) : List (List Char) → List Char
  | [] => []
  | [x] => x
  | x :: y :: rest => x ++ sep :: pyJoinChars sep (y :: rest)

/-- Model of Python `'\n'.join(lines)` on strings. -/
def pyJoin (lines : List String) : String :=
  String.mk (pyJoinChars '\n' (lines.map String.data))

theorem pySplitChars_ne_nil (sep : Char) (l : List Char) :
    pySplitChars sep l ≠ [] := by
  induction l with
  | nil => simp [pySplitChars]
  | cons c cs ih =>
    simp only [pySplitChars]
    by_cases h : c = sep
    · simp [h]
    · simp only [h, if_false]
      cases hr : pySplitChars sep cs with
      | nil => simp
      | cons a t => simp

theorem pySplitChars_append_sep (sep : Char) (x y : List Char) :
    pySplitChars sep (x ++ sep :: y) =
      pySplitChars sep x ++ pySplitChars sep y := by
  induction x with
  | nil => simp [pySplitChars]
  | cons c cs ih =>
    simp only [List.cons_append, pySplitChars]
    by_cases h : c = sep
    · simp [h, ih]
    · simp only [h, if_false]
      cases hr : pySplitChars sep cs with
      | nil => exact absurd hr (pySplitChars_ne_nil sep cs)
      | cons a t =>
        have ih2 : pySplitChars sep (cs.append (sep :: y))
            = pySplitChars sep cs ++ pySplitChars sep y := ih
        rw [ih2, hr, List.cons_append]
        rfl

/-- Splitting a joined list of pieces recovers the concatenation of the
splits of the pieces (for a non-empty piece list). -/
theorem pySplitChars_pyJoinChars (sep : Char) (ls : List (List Char))
    (h : ls ≠ []) :
    pySplitChars sep (pyJoinChars sep ls) = ls.flatMap (pySplitChars sep) := by
  induction ls with
  | nil => exact absurd rfl h
  | cons x rest ih =>
    cases rest with
    | nil => simp [pyJoinChars, pySplitChars_ne_nil]
    | cons y t =>
      have hne : y :: t ≠ ([] : List (List Char)) := by simp
      simp only [pyJoinChars, pySplitChars_append_sep, ih hne, List.flatMap_cons]

theorem map_data_bind (lines : List String) :
    ((lines.map String.data).flatMap (pySplitChars '\n')).map String.mk
      = lines.flatMap pySplit := by
  induction lines with
  | nil => rfl
  | cons a t ih =>
    simp only [List.map_cons, List.flatMap_cons, List.map_append, ih]
    rfl

/-- String-level split/join correspondence: splitting the joined report
text on newlines yields the concatenation of the splits of the
individual lines. -/
theorem pySplit_pyJoin (lines : List String) (h : lines ≠ []) :
    pySplit (pyJoin lines) = lines.flatMap pySplit := by
  unfold pySplit pyJoin
  have hmap : lines.map String.data ≠ [] := by simpa using h
  rw [show (String.mk (pyJoinChars '\n' (lines.map String.data))).data
        = pyJoinChars '\n' (lines.map String.data) from rfl]
  rw [pySplitChars_pyJoinChars _ _ hmap]
  exact map_data_bind lines

/-- Calendar date, as produced by the form's date picker. -/
structure Date where
  year : Nat
  month : Nat
  day : Nat
deriving DecidableEq, Repr

/-- Model of Python `"%02d" % n` style zero padding to two digits, as
produced by the `%d` and `%m` directives of `strftime`. -/
def pad2 (n : Nat) : String :=
  if n < 10 then "0" ++ toString n else toString n

/-- Model of the `%Y` directive of CPython `strftime`: the year zero
padded to at least four digits. -/
def pad4 (n : Nat) : String :=
  if n < 10 then "000" ++ toString n
  else if n < 100 then "00" ++ toString n
  else if n < 1000 then "0" ++ toString n
  else toString n

/-- Model of `date_of_exam.strftime('%d-%m-%Y')`. -/
def strftime_dmY (d : Date) : String :=
  pad2 d.day ++ "-" ++ pad2 d.month ++ "-" ++ pad4 d.year

/-- The set of user-supplied form fields describing one report
instance (the spec's ReportRequest entity).  All text fields are free
text; the signature image is an optional byte blob. -/
structure ReportRequest where
  patient_name : String
  age : String
  sex : String
  hospital_no : String
  referring_physician : String
  date_of_exam : Date
  xray_type : String
  clinical_history : String
  findings : String
  impression : String
  doctor_name : String
  signature_image : Option (List Nat)
deriving DecidableEq, Repr

/-- The line list built by `build_report_text` (source lines 50-73),
translated append by append.  Python truthiness of a string
(`if clinical_history:`, `findings if findings else "-"`) is
non-emptiness. -/
def report_lines (r : ReportRequest) : List String :=
  [ "MLC X-RAY REPORT",
    "",
    "Patient Name: " ++ r.patient_name,
    "Age / Sex: " ++ r.age ++ " / " ++ r.sex,
    "Hospital / OPD No.: " ++ r.hospital_no,
    "Referring Physician: " ++ r.referring_physician,
    "Date of Exam: " ++ strftime_dmY r.date_of_exam,
    "Examination: " ++ r.xray_type,
    "" ]
  ++ (if r.clinical_history ≠ "" then
        ["Clinical History:", r.clinical_history, ""]
      else [])
  ++ [ "Findings:",
       (if r.findings ≠ "" then r.findings else "-"),
       "",
       "Impression:",
       (if r.impression ≠ "" then r.impression else "-"),
       "",
       "Reporting Doctor: " ++ r.doctor_name,
       "",
       "Note: This report is generated electronically and is valid without a wet signature unless otherwise required." ]

/-- `build_report_text` (source line 74): the lines joined with
newlines. -/
def build_report_text (r : ReportRequest) : String :=
  pyJoin (report_lines r)

/-! Section blocks, named after the spec's description of the
template.  Blank separator lines are attached to the block they
follow. -/

/-- The title line together with the blank line that follows it. -/
def titleSection : List String :=
  ["MLC X-RAY REPORT", ""]

/-- The patient identification block: name, age/sex, hospital number,
referring physician, exam date (DD-MM-YYYY) and examination type. -/
def identificationBlock (r : ReportRequest) : List String :=
  [ "Patient Name: " ++ r.patient_name,
    "Age / Sex: " ++ r.age ++ " / " ++ r.sex,
    "Hospital / OPD No.: " ++ r.hospital_no,
    "Referring Physician: " ++ r.referring_physician,
    "Date of Exam: " ++ strftime_dmY r.date_of_exam,
    "Examination: " ++ r.xray_type ]

/-- The optional clinical-history block: header, text and trailing
blank line, present exactly when `clinical_history` is non-empty. -/
def clinicalHistorySection (r : ReportRequest) : List String :=
  if r.clinical_history ≠ "" then
    ["Clinical History:", r.clinical_history, ""]
  else []

/-- The findings block: header, the findings text or the placeholder
dash, and the trailing blank line. -/
def findingsSection (r : ReportRequest) : List String :=
  ["Findings:", (if r.findings ≠ "" then r.findings else "-"), ""]

/-- The impression block: header, the impression text or the
placeholder dash, and the trailing blank line. -/
def impressionSection (r : ReportRequest) : List String :=
  ["Impression:", (if r.impression ≠ "" then r.impression else "-"), ""]

/-- The reporting-doctor line with its trailing blank line. -/
def doctorSection (r : ReportRequest) : List String :=
  ["Reporting Doctor: " ++ r.doctor_name, ""]

/-- The fixed legal/validity notice line. -/
def noticeLine : String :=
  "Note: This report is generated electronically and is valid without a wet signature unless otherwise required."

/-- Helper decomposition of the assembled line list into the named
section blocks. -/
theorem report_lines_decomp (r : ReportRequest) :
    report_lines r =
      titleSection ++ identificationBlock r ++ [""]
        ++ clinicalHistorySection r
        ++ findingsSection r ++ impressionSection r
        ++ doctorSection r ++ [noticeLine] := by
  by_cases h : r.clinical_history = ""
  · simp [report_lines, titleSection, identificationBlock,
      clinicalHistorySection, findingsSection, impressionSection,
      doctorSection, noticeLine, h]
  · simp [report_lines, titleSection, identificationBlock,
      clinicalHistorySection, findingsSection, impressionSection,
      doctorSection, noticeLine, h]

/-- The line list is never empty (its head is the title line). -/
theorem report_lines_ne_nil (r : ReportRequest) : report_lines r ≠ [] := by
  simp [report_lines]

/-! ## DOCX exporter model

The python-docx library is modelled by a document holding an ordered
list of paragraph-level blocks; `add_heading` and `add_paragraph`
append one block each. -/

/-- A paragraph-level block of a DOCX document: a heading with its
level, or a body paragraph. -/
inductive DocxBlock where
  | heading (text : String) (level : Nat)
  | para (text : String)
deriving DecidableEq, Repr

/-- A DOCX document: its ordered paragraph-level blocks. -/
structure DocxDocument where
  blocks : List DocxBlock
deriving DecidableEq, Repr

/-- Model of `Document()`. -/
def Document_new : DocxDocument := ⟨[]⟩

/-- Model of `doc.add_heading(text, level)`. -/
def add_heading (d : DocxDocument) (text : String) (level : Nat) :
    DocxDocument :=
  ⟨d.blocks ++ [DocxBlock.heading text level]⟩

/-- Model of `doc.add_paragraph(text)`. -/
def add_paragraph (d : DocxDocument) (text : String) : DocxDocument :=
  ⟨d.blocks ++ [DocxBlock.para text]⟩

/-- `create_docx` (source lines 116-125): a heading, then one
paragraph per line of the report text.  The signature parameter is
accepted but never used. -/
def create_docx (report_text : String)
    (signature_bytes : Option (List Nat)) : DocxDocument :=
  let doc := Document_new
  let doc := add_heading doc "MLC X-RAY REPORT" 1
  (pySplit report_text).foldl add_paragraph doc

/-- Folding `add_paragraph` appends one paragraph block per line. -/
theorem foldl_add_paragraph (ls : List String) (d : DocxDocument) :
    ls.foldl add_paragraph d = ⟨d.blocks ++ ls.map DocxBlock.para⟩ := by
  induction ls generalizing d with
  | nil => simp
  | cons a t ih =>
    simp [List.foldl_cons, ih, add_paragraph, List.append_assoc]

/-- Closed form of the DOCX exporter. -/
theorem create_docx_eq (report_text : String) (sig : Option (List Nat)) :
    create_docx report_text sig =
      ⟨DocxBlock.heading "MLC X-RAY REPORT" 1
        :: (pySplit report_text).map DocxBlock.para⟩ := by
  simp [create_docx, Document_new, add_heading, foldl_add_paragraph]

/-! ## PDF exporter model

The FPDF library is modelled by a document holding the ordered content
elements written onto its pages: title cell, one multi-line cell per
report line, and optionally the re-encoded signature image.  The PIL
`Image.open` / `img.save(PNG)` round trip is an external library call
and is abstracted as a fallible `decode` function producing PNG bytes;
the result type `Except` models a possible Python exception. -/

/-- A content element written into the PDF. -/
inductive PdfElem where
  | cell (text : String)
  | multiCell (text : String)
  | image (png : List Nat)
deriving DecidableEq, Repr

/-- A PDF document: its ordered content elements. -/
structure PdfDoc where
  elements : List PdfElem
deriving DecidableEq, Repr

/-- Whether an element is an embedded image. -/
def PdfElem.isImage : PdfElem → Bool
  | PdfElem.image _ => true
  | _ => false

/-- Number of embedded images in an element list. -/
def countImages (es : List PdfElem) : Nat :=
  (es.filter PdfElem.isImage).length

/-- `create_pdf` (source lines 87-113).  The title cell, then one
`multi_cell` per line of `report_text.split('\n')`; then, if the
signature blob is truthy (present and non-empty), the `try` block
attempts to decode and re-encode it as PNG and embed it, and on any
exception silently keeps the document unchanged (`except ... pass`).
The function returns the output buffer; an uncaught exception would
surface as `Except.error`. -/
def create_pdf (decode : List Nat → Except String (List Nat))
    (report_text : String)
    (signature_bytes : Option (List Nat)) :
    Except String PdfDoc :=
  let elems := PdfElem.cell "MLC X-RAY REPORT"
    :: (pySplit report_text).map PdfElem.multiCell
  match signature_bytes with
  | none => Except.ok ⟨elems⟩
  | some b =>
    if b = [] then Except.ok ⟨elems⟩
    else
      match decode b with
      | Except.ok png => Except.ok ⟨elems ++ [PdfElem.image png]⟩
      | Except.error _ => Except.ok ⟨elems⟩

/-! ## Delivery flow -/

/-- The outputs delivered to the user by the `generate` branch of the
app (source lines 127-150): success banner, preview expander, PDF
download button, optional DOCX download button, copyable code block.
The source never renders an error message in this branch. -/
structure DeliveredOutputs where
  success_message : Option String
  preview_text : Option String
  pdf_download : Option PdfDoc
  docx_download : Option DocxDocument
  error_message : Option String
  code_text : Option String
deriving DecidableEq, Repr

/-- The `if generate:` branch (source lines 127-150).  The DOCX
exporter is abstracted as a fallible function to model the
`try ... except Exception: pass` around `create_docx`: on failure the
DOCX download button is simply not rendered.  The PDF exporter is
called outside any handler, so its failure would propagate. -/
def generateOutputs (decode : List Nat → Except String (List Nat))
    (docxExport : String → Option (List Nat) → Except String DocxDocument)
    (r : ReportRequest) : Except String DeliveredOutputs :=
  let report_text := build_report_text r
  let sig_bytes := r.signature_image
  match create_pdf decode report_text sig_bytes with
  | Except.error e => Except.error e
  | Except.ok pdf_file =>
    let docx :=
      match docxExport report_text sig_bytes with
      | Except.ok d => some d
      | Except.error _ => none
    Except.ok
      { success_message := some "Report generated — download below",
        preview_text := some report_text,
        pdf_download := some pdf_file,
        docx_download := docx,
        error_message := none,
        code_text := some report_text }

/-! ## Helper lemmas -/

/-- Splitting a newline-free character list returns the singleton. -/
theorem pySplitChars_no_sep (sep : Char) (l : List Char) (h : sep ∉ l) :
    pySplitChars sep l = [l] := by
  induction l with
  | nil => rfl
  | cons c cs ih =>
    have hc : ¬c = sep := fun hcs => h (hcs ▸ List.mem_cons_self c cs)
    have hcs : sep ∉ cs := fun hm => h (List.mem_cons_of_mem c hm)
    simp only [pySplitChars, hc, if_false, ih hcs]

/-- Splitting a newline-free string returns the singleton. -/
theorem pySplit_single (s : String) (h : '\n' ∉ s.data) :
    pySplit s = [s] := by
  unfold pySplit
  rw [pySplitChars_no_sep _ _ h]
  cases s
  rfl

/-- `create_pdf` never propagates a failure and its document always
contains at least the title cell. -/
theorem create_pdf_ok (decode : List Nat → Except String (List Nat))
    (report_text : String) (sig : Option (List Nat)) :
    ∃ doc, create_pdf decode report_text sig = Except.ok doc
      ∧ doc.elements ≠ [] := by
  cases sig with
  | none => exact ⟨_, rfl, by simp⟩
  | some b =>
    by_cases hb : b = []
    · refine ⟨⟨PdfElem.cell "MLC X-RAY REPORT"
        :: (pySplit report_text).map PdfElem.multiCell⟩, ?_, by simp⟩
      simp [create_pdf, hb]
    · cases hd : decode b with
      | ok png =>
        refine ⟨⟨(PdfElem.cell "MLC X-RAY REPORT"
          :: (pySplit report_text).map PdfElem.multiCell)
            ++ [PdfElem.image png]⟩, ?_, by simp⟩
        simp [create_pdf, hb, hd]
      | error e =>
        refine ⟨⟨PdfElem.cell "MLC X-RAY REPORT"
          :: (pySplit report_text).map PdfElem.multiCell⟩, ?_, by simp⟩
        simp [create_pdf, hb, hd]

/-- The body elements written before the signature step contain no
image. -/
theorem countImages_base (text : String) :
    countImages (PdfElem.cell "MLC X-RAY REPORT"
      :: (pySplit text).map PdfElem.multiCell) = 0 := by
  simp [countImages, PdfElem.isImage, List.filter_map, Function.comp]

/-- The report line list starts with the title line. -/
theorem report_lines_head (r : ReportRequest) :
    ∃ t, report_lines r = "MLC X-RAY REPORT" :: t :=
  ⟨_, rfl⟩

/-- The title line splits to itself. -/
theorem pySplit_title : pySplit "MLC X-RAY REPORT" = ["MLC X-RAY REPORT"] := by
  apply pySplit_single
  decide

/-- The assembled report text, split back on newlines, starts with the
title line. -/
theorem pySplit_build_head (r : ReportRequest) :
    ∃ rest, pySplit (build_report_text r) = "MLC X-RAY REPORT" :: rest := by
  obtain ⟨t, ht⟩ := report_lines_head r
  rw [build_report_text, pySplit_pyJoin _ (report_lines_ne_nil r), ht,
    List.flatMap_cons, pySplit_title]
  exact ⟨t.flatMap pySplit, rfl⟩

/-! ## Claim theorems -/

/-- C1: For every ReportRequest, the assembled report text consists of,
in order: the title line; the patient identification block (patient
name, age/sex, hospital number, referring physician, exam date in
DD-MM-YYYY, examination type); a blank line; an optional
clinical-history block present exactly when `clinical_history` is
non-empty; the findings block; the impression block; the reporting
doctor line; and the fixed legal/validity notice line — and nothing
else. -/
theorem report_text_is_ordered_sections (r : ReportRequest) :
    build_report_text r =
      pyJoin (titleSection ++ identificationBlock r ++ [""]
        ++ clinicalHistorySection r
        ++ findingsSection r ++ impressionSection r
        ++ doctorSection r ++ [noticeLine]) := by
  unfold build_report_text
  rw [report_lines_decomp]

/-- C2: with empty `findings` the assembled text contains the
placeholder line `-` directly under the `Findings:` header, and with
empty `impression` it contains the placeholder line `-` directly under
the `Impression:` header. -/
theorem empty_findings_impression_render_dash (r : ReportRequest) :
    (r.findings = "" → ∃ pre post,
      pySplit (build_report_text r) = pre ++ ["Findings:", "-"] ++ post) ∧
    (r.impression = "" → ∃ pre post,
      pySplit (build_report_text r) = pre ++ ["Impression:", "-"] ++ post) := by
  have key : pySplit (build_report_text r)
      = (report_lines r).flatMap pySplit := by
    unfold build_report_text
    exact pySplit_pyJoin _ (report_lines_ne_nil r)
  rw [report_lines_decomp] at key
  simp only [List.flatMap_append] at key
  constructor
  · intro hf
    have hfs : (findingsSection r).flatMap pySplit
        = ["Findings:", "-"] ++ [""] := by
      simp [findingsSection, hf, pySplit_single, List.flatMap_cons]
    refine ⟨titleSection.flatMap pySplit
        ++ (identificationBlock r).flatMap pySplit
        ++ ([""] : List String).flatMap pySplit
        ++ (clinicalHistorySection r).flatMap pySplit,
      [""] ++ (impressionSection r).flatMap pySplit
        ++ (doctorSection r).flatMap pySplit
        ++ ([noticeLine] : List String).flatMap pySplit, ?_⟩
    rw [key, hfs]
    simp [List.append_assoc]
  · intro hi
    have his : (impressionSection r).flatMap pySplit
        = ["Impression:", "-"] ++ [""] := by
      simp [impressionSection, hi, pySplit_single, List.flatMap_cons]
    refine ⟨titleSection.flatMap pySplit
        ++ (identificationBlock r).flatMap pySplit
        ++ ([""] : List String).flatMap pySplit
        ++ (clinicalHistorySection r).flatMap pySplit
        ++ (findingsSection r).flatMap pySplit,
      [""] ++ (doctorSection r).flatMap pySplit
        ++ ([noticeLine] : List String).flatMap pySplit, ?_⟩
    rw [key, his]
    simp [List.append_assoc]

/-- C3: with empty `clinical_history` the assembled line sequence goes
straight from the identification block (and its separating blank line)
to the findings section, containing no clinical-history section; with
non-empty `clinical_history` the section — header line, the history
text, and a blank line — sits immediately after the identification
block and before the findings section. -/
theorem clinical_history_included_iff_nonempty (r : ReportRequest) :
    (r.clinical_history = "" →
      report_lines r = titleSection ++ identificationBlock r ++ [""]
        ++ findingsSection r ++ impressionSection r ++ doctorSection r
        ++ [noticeLine]) ∧
    (r.clinical_history ≠ "" →
      report_lines r = titleSection ++ identificationBlock r ++ [""]
        ++ ["Clinical History:", r.clinical_history, ""]
        ++ findingsSection r ++ impressionSection r ++ doctorSection r
        ++ [noticeLine]) := by
  constructor
  · intro h
    rw [report_lines_decomp]
    simp [clinicalHistorySection, h]
  · intro h
    rw [report_lines_decomp]
    simp [clinicalHistorySection, h]

/-- C4: the exam date renders as DD-MM-YYYY: for the date 2024-03-05
the formatted value is exactly `05-03-2024` and the line
`Date of Exam: 05-03-2024` appears in the assembled lines. -/
theorem exam_date_renders_ddmmyyyy (r : ReportRequest)
    (h : r.date_of_exam = ⟨2024, 3, 5⟩) :
    strftime_dmY r.date_of_exam = "05-03-2024" ∧
    "Date of Exam: 05-03-2024" ∈ report_lines r := by
  have hs : strftime_dmY r.date_of_exam = "05-03-2024" := by
    rw [h]
    decide
  refine ⟨hs, ?_⟩
  have hline : "Date of Exam: " ++ strftime_dmY r.date_of_exam
      = "Date of Exam: 05-03-2024" := by
    rw [hs]
    decide
  simp [report_lines, hline]

/-- C5: the assembler is deterministic — two requests agreeing on all
eleven text/date fields (the signature image is not among them) yield
the same assembled report text. -/
theorem build_report_text_deterministic (r1 r2 : ReportRequest)
    (h1 : r1.patient_name = r2.patient_name)
    (h2 : r1.age = r2.age)
    (h3 : r1.sex = r2.sex)
    (h4 : r1.hospital_no = r2.hospital_no)
    (h5 : r1.referring_physician = r2.referring_physician)
    (h6 : r1.date_of_exam = r2.date_of_exam)
    (h7 : r1.xray_type = r2.xray_type)
    (h8 : r1.clinical_history = r2.clinical_history)
    (h9 : r1.findings = r2.findings)
    (h10 : r1.impression = r2.impression)
    (h11 : r1.doctor_name = r2.doctor_name) :
    build_report_text r1 = build_report_text r2 := by
  unfold build_report_text report_lines
  rw [h1, h2, h3, h4, h5, h6, h7, h8, h9, h10, h11]

/-- C6: the DOCX exporter produces one heading followed by one
paragraph per line of the report text, in order, hence N+1
paragraph-level blocks for N lines. -/
theorem docx_blocks_one_heading_plus_lines (report_text : String)
    (sig : Option (List Nat)) :
    create_docx report_text sig
      = ⟨DocxBlock.heading "MLC X-RAY REPORT" 1
          :: (pySplit report_text).map DocxBlock.para⟩ ∧
    (create_docx report_text sig).blocks.length
      = (pySplit report_text).length + 1 := by
  refine ⟨create_docx_eq report_text sig, ?_⟩
  rw [create_docx_eq]
  simp

/-- C7: the PDF exporter never propagates a failure and always returns
a non-empty document — for any decoder; and when the signature blob is
undecodable (the decoder always fails), the image is silently omitted:
the produced document contains no image. -/
theorem pdf_survives_bad_signature (report_text : String)
    (sig : Option (List Nat))
    (decode : List Nat → Except String (List Nat))
    (hfail : ∀ b png, decode b ≠ Except.ok png) :
    (∀ d2 : List Nat → Except String (List Nat), ∃ doc,
        create_pdf d2 report_text sig = Except.ok doc
          ∧ doc.elements ≠ []) ∧
    (∃ doc, create_pdf decode report_text sig = Except.ok doc
        ∧ doc.elements ≠ [] ∧ countImages doc.elements = 0) := by
  refine ⟨fun d2 => create_pdf_ok d2 report_text sig, ?_⟩
  cases sig with
  | none =>
    exact ⟨⟨PdfElem.cell "MLC X-RAY REPORT"
      :: (pySplit report_text).map PdfElem.multiCell⟩,
      rfl, by simp, countImages_base report_text⟩
  | some b =>
    by_cases hb : b = []
    · refine ⟨⟨PdfElem.cell "MLC X-RAY REPORT"
        :: (pySplit report_text).map PdfElem.multiCell⟩,
        ?_, by simp, countImages_base report_text⟩
      simp [create_pdf, hb]
    · cases hd : decode b with
      | ok png => exact absurd hd (hfail b png)
      | error e =>
        refine ⟨⟨PdfElem.cell "MLC X-RAY REPORT"
          :: (pySplit report_text).map PdfElem.multiCell⟩,
          ?_, by simp, countImages_base report_text⟩
        simp [create_pdf, hb, hd]

/-- C8: the DOCX exporter ignores its signature-image parameter: the
document produced is the same for any two signature blobs. -/
theorem docx_independent_of_signature (report_text : String)
    (s1 s2 : Option (List Nat)) :
    create_docx report_text s1 = create_docx report_text s2 := rfl

/-- C9: if the DOCX export fails, the failure is swallowed at the call
site: the DOCX download is simply omitted, no error message is shown,
and the PDF download, preview text and copyable text are still
delivered. -/
theorem docx_failure_omits_download_quietly
    (decode : List Nat → Except String (List Nat))
    (docxExport : String → Option (List Nat) → Except String DocxDocument)
    (r : ReportRequest) (e : String)
    (h : docxExport (build_report_text r) r.signature_image
      = Except.error e) :
    ∃ outs, generateOutputs decode docxExport r = Except.ok outs
      ∧ outs.docx_download = none
      ∧ outs.error_message = none
      ∧ (∃ pdf, outs.pdf_download = some pdf)
      ∧ outs.preview_text = some (build_report_text r)
      ∧ outs.code_text = some (build_report_text r) := by
  obtain ⟨doc, hdoc, hne⟩ :=
    create_pdf_ok decode (build_report_text r) r.signature_image
  refine ⟨⟨some "Report generated — download below",
    some (build_report_text r), some doc, none, none,
    some (build_report_text r)⟩, ?_, rfl, rfl, ⟨doc, rfl⟩, rfl, rfl⟩
  simp [generateOutputs, hdoc, h]

/-- C10: the title string appears twice in each exported document: the
exporter-added heading (first block of the DOCX, first cell of the
PDF) and the first body line of the assembled report text (second
block of the DOCX, second content element of the PDF). -/
theorem title_appears_in_heading_and_body (r : ReportRequest)
    (sig : Option (List Nat))
    (decode : List Nat → Except String (List Nat)) :
    ((create_docx (build_report_text r) sig).blocks[0]?
        = some (DocxBlock.heading "MLC X-RAY REPORT" 1)) ∧
    ((create_docx (build_report_text r) sig).blocks[1]?
        = some (DocxBlock.para "MLC X-RAY REPORT")) ∧
    (∃ doc, create_pdf decode (build_report_text r) sig = Except.ok doc
      ∧ doc.elements[0]? = some (PdfElem.cell "MLC X-RAY REPORT")
      ∧ doc.elements[1]? = some (PdfElem.multiCell "MLC X-RAY REPORT")) := by
  obtain ⟨rest, hsplit⟩ := pySplit_build_head r
  refine ⟨?_, ?_, ?_⟩
  · rw [create_docx_eq]
    rfl
  · rw [create_docx_eq, hsplit]
    simp
  · cases sig with
    | none =>
      refine ⟨⟨PdfElem.cell "MLC X-RAY REPORT"
        :: (pySplit (build_report_text r)).map PdfElem.multiCell⟩,
        rfl, ?_, ?_⟩
      · rfl
      · rw [hsplit]
        simp
    | some b =>
      by_cases hb : b = []
      · refine ⟨⟨PdfElem.cell "MLC X-RAY REPORT"
          :: (pySplit (build_report_text r)).map PdfElem.multiCell⟩,
          ?_, rfl, ?_⟩
        · simp [create_pdf, hb]
        · rw [hsplit]
          simp
      · cases hd : decode b with
        | ok png =>
          refine ⟨⟨(PdfElem.cell "MLC X-RAY REPORT"
            :: (pySplit (build_report_text r)).map PdfElem.multiCell)
              ++ [PdfElem.image png]⟩, ?_, rfl, ?_⟩
          · simp [create_pdf, hb, hd]
          · rw [hsplit]
            simp
        | error e =>
          refine ⟨⟨PdfElem.cell "MLC X-RAY REPORT"
            :: (pySplit (build_report_text r)).map PdfElem.multiCell⟩,
            ?_, rfl, ?_⟩
          · simp [create_pdf, hb, hd]
          · rw [hsplit]
            simp

/-! ## Concrete requests and witnesses -/

/-- A request with every text field empty. -/
def rqA : ReportRequest :=
  ⟨"", "", "", "", "", ⟨2024, 3, 5⟩, "", "", "", "", "", none⟩

/-- A request with a non-empty clinical history. -/
def rqB : ReportRequest :=
  ⟨"", "", "", "", "", ⟨2024, 3, 5⟩, "", "cough", "", "", "", none⟩

/-- Like `rqA` but carrying a signature blob. -/
def rqC : ReportRequest :=
  ⟨"", "", "", "", "", ⟨2024, 3, 5⟩, "", "", "", "", "", some [1, 2, 3]⟩

/-- A decoder that fails on every blob (a corrupt signature image). -/
def badDecode : List Nat → Except String (List Nat) :=
  fun _ => Except.error "undecodable"

/-- A DOCX exporter that raises on every call. -/
def failDocx : String → Option (List Nat) → Except String DocxDocument :=
  fun _ _ => Except.error "boom"

theorem empty_findings_impression_render_dash_w :
    (∃ pre post, pySplit (build_report_text rqA)
        = pre ++ ["Findings:", "-"] ++ post) ∧
    (∃ pre post, pySplit (build_report_text rqA)
        = pre ++ ["Impression:", "-"] ++ post) :=
  ⟨(empty_findings_impression_render_dash rqA).1 rfl,
   (empty_findings_impression_render_dash rqA).2 rfl⟩

theorem clinical_history_included_iff_nonempty_w :
    (report_lines rqA = titleSection ++ identificationBlock rqA ++ [""]
        ++ findingsSection rqA ++ impressionSection rqA ++ doctorSection rqA
        ++ [noticeLine]) ∧
    (report_lines rqB = titleSection ++ identificationBlock rqB ++ [""]
        ++ ["Clinical History:", rqB.clinical_history, ""]
        ++ findingsSection rqB ++ impressionSection rqB ++ doctorSection rqB
        ++ [noticeLine]) :=
  ⟨(clinical_history_included_iff_nonempty rqA).1 rfl,
   (clinical_history_included_iff_nonempty rqB).2 (by decide)⟩

theorem exam_date_renders_ddmmyyyy_w :
    strftime_dmY rqA.date_of_exam = "05-03-2024" ∧
    "Date of Exam: 05-03-2024" ∈ report_lines rqA :=
  exam_date_renders_ddmmyyyy rqA rfl

theorem build_report_text_deterministic_w :
    build_report_text rqA = build_report_text rqC :=
  build_report_text_deterministic rqA rqC
    rfl rfl rfl rfl rfl rfl rfl rfl rfl rfl rfl

theorem pdf_survives_bad_signature_w :
    (∀ d2 : List Nat → Except String (List Nat), ∃ doc,
        create_pdf d2 "sample report" (some [255, 1, 2]) = Except.ok doc
          ∧ doc.elements ≠ []) ∧
    (∃ doc, create_pdf badDecode "sample report" (some [255, 1, 2])
        = Except.ok doc ∧ doc.elements ≠ []
        ∧ countImages doc.elements = 0) :=
  pdf_survives_bad_signature "sample report" (some [255, 1, 2]) badDecode
    (fun _ _ h => Except.noConfusion h)

theorem docx_failure_omits_download_quietly_w :
    ∃ outs, generateOutputs badDecode failDocx rqA = Except.ok outs
      ∧ outs.docx_download = none
      ∧ outs.error_message = none
      ∧ (∃ pdf, outs.pdf_download = some pdf)
      ∧ outs.preview_text = some (build_report_text rqA)
      ∧ outs.code_text = some (build_report_text rqA) :=
  docx_failure_omits_download_quietly badDecode failDocx rqA "boom" rfl

end MLCXray
